import Mathlib

/-!
Shallow embedding of the adaptive parallel crawl-orchestration engine
(`backend/ai_scraper_core.py`, `backend/super_parallel_engine.py`,
`backend/medical_scraper_api.py`).

Numbers: Python floats are modelled as exact rationals (`ℚ`); the claims
settled here are algebraic (bounds, ratios, running means), where exact
arithmetic coincides with the float semantics up to rounding noise that
none of the claims depend on.  Python `int(x)` (truncation toward zero) is
modelled by `pyInt`.  `hashlib.md5` hex digests and `urllib.parse.urlparse`
are library code not in the repository; the deduplication section models the
digest by an injective stand-in and URLs as their parsed components.
-/

/-- Python `int(x)`: truncation toward zero on an exact rational. -/
def pyInt (q : ℚ) : ℤ := if 0 ≤ q then ⌊q⌋ else -⌊-q⌋

/-- Bool-valued substring test on character lists: Python `p in s`. -/
def isSubstring (p : List Char) : List Char → Bool
  | [] => p.isEmpty
  | c :: rest => p.isPrefixOf (c :: rest) || isSubstring p rest

/-- Python `pattern in domain` on strings. -/
def strContains (s pat : String) : Bool := isSubstring pat.data s.data

/-- Python `s.lower()` (ASCII lowering of each character). -/
def strToLower (s : String) : String := ⟨s.data.map Char.toLower⟩

section RateLimiter

/-- Per-domain statistics kept by `AdaptiveRateLimiter.domain_stats`
(`ai_scraper_core.py`). -/
structure DomainStats where
  success_count : ℕ := 0
  error_count : ℕ := 0
  total_requests : ℕ := 0
  avg_response_time : ℚ := 0
  last_request_time : ℚ := 0
  consecutive_errors : ℕ := 0
  rate_limit_detected : Bool := false
deriving Repr, DecidableEq

/-- Fresh entry produced by the `defaultdict` in `AdaptiveRateLimiter.__init__`. -/
def initialDomainStats : DomainStats := {}

/-- The `base_delays` table of `_calculate_adaptive_delay`, in Python dict
insertion order (the first substring match wins). -/
def baseDelays : List (String × ℚ) :=
  [(".gov", 3), (".edu", 2), (".org", 3/2), ("who.int", 4),
   ("nih.gov", 7/2), ("cdc.gov", 3), ("fda.gov", 3)]

/-- Base delay selection loop of `_calculate_adaptive_delay`: the first
pattern occurring in the domain sets the base; default 1.0. -/
def baseDelay (domain : String) : ℚ :=
  match baseDelays.find? (fun p => strContains domain p.1) with
  | some p => p.2
  | none => 1

/-- `AdaptiveRateLimiter._calculate_adaptive_delay` (ai_scraper_core.py
lines 834-886), with Python float arithmetic taken exactly. -/
def calculate_adaptive_delay (domain : String) (stats : DomainStats) : ℚ :=
  let base0 := baseDelay domain
  let base1 :=
    if stats.total_requests > 10 then
      let success_rate : ℚ := (stats.success_count : ℚ) / (stats.total_requests : ℚ)
      if success_rate < 1/2 then base0 * 3
      else if success_rate < 7/10 then base0 * 2
      else if success_rate < 9/10 then base0 * (3/2)
      else base0 * (4/5)
    else base0
  let base2 :=
    if stats.consecutive_errors > 0 then
      base1 * min 5 ((3/2) ^ stats.consecutive_errors)
    else base1
  let base3 := if stats.rate_limit_detected then base2 * 10 else base2
  let base4 :=
    if stats.avg_response_time > 10 then base3 * (3/2)
    else if stats.avg_response_time > 5 then base3 * (6/5)
    else base3
  base4

/-- The success-rate multiplier actually applied by the code (1 when the
domain has at most 10 recorded requests). -/
def successRateFactor (successCount totalRequests : ℕ) : ℚ :=
  if totalRequests > 10 then
    let success_rate : ℚ := (successCount : ℚ) / (totalRequests : ℚ)
    if success_rate < 1/2 then 3
    else if success_rate < 7/10 then 2
    else if success_rate < 9/10 then 3/2
    else 4/5
  else 1

/-- The consecutive-error multiplier `min(5.0, 1.5 ** consecutive_errors)`
(1 when there are no consecutive errors). -/
def errorFactor (consecutiveErrors : ℕ) : ℚ :=
  if consecutiveErrors > 0 then min 5 ((3/2) ^ consecutiveErrors) else 1

/-- The rate-limit-detected multiplier. -/
def rateLimitFactor (detected : Bool) : ℚ := if detected then 10 else 1

/-- The average-response-time multiplier. -/
def responseTimeFactor (avg : ℚ) : ℚ :=
  if avg > 10 then 3/2 else if avg > 5 then 6/5 else 1

/-- The sequential in-place multiplications of `_calculate_adaptive_delay`
amount to a product of independent factors. -/
theorem calculate_adaptive_delay_eq_prod (domain : String) (stats : DomainStats) :
    calculate_adaptive_delay domain stats =
      baseDelay domain * successRateFactor stats.success_count stats.total_requests *
        errorFactor stats.consecutive_errors *
        rateLimitFactor stats.rate_limit_detected *
        responseTimeFactor stats.avg_response_time := by
  unfold calculate_adaptive_delay successRateFactor errorFactor rateLimitFactor
    responseTimeFactor
  split_ifs <;> dsimp only <;> first
    | (split_ifs <;> ring)
    | ring

theorem baseDelay_pos (domain : String) : 0 < baseDelay domain := by
  unfold baseDelay
  rcases h : baseDelays.find? (fun p => strContains domain p.1) with _ | p
  · rw [h]; norm_num
  · rw [h]
    have hm := List.mem_of_find?_eq_some h
    fin_cases hm <;> norm_num

theorem successRateFactor_pos (sc tr : ℕ) : 0 < successRateFactor sc tr := by
  unfold successRateFactor
  dsimp only
  split_ifs <;> norm_num

theorem rateLimitFactor_pos (b : Bool) : 0 < rateLimitFactor b := by
  unfold rateLimitFactor
  split_ifs <;> norm_num

theorem responseTimeFactor_pos (avg : ℚ) : 0 < responseTimeFactor avg := by
  unfold responseTimeFactor
  split_ifs <;> norm_num

theorem errorFactor_mono {m n : ℕ} (h : m ≤ n) : errorFactor m ≤ errorFactor n := by
  unfold errorFactor
  split_ifs with hm hn
  · exact min_le_min le_rfl (pow_le_pow_right₀ (by norm_num) h)
  · exact absurd (by omega : n > 0) hn
  · refine le_min (by norm_num) ?_
    simpa using pow_le_pow_right₀ (by norm_num : (1:ℚ) ≤ 3/2) (Nat.zero_le n)
  · exact le_rfl

/-- C4: for any fixed domain and fixed other statistics, the adaptive delay
is monotonically non-decreasing in `consecutive_errors`; and the delay with
`rate_limit_detected` set is exactly 10 times the delay without it, all else
equal (`AdaptiveRateLimiter._calculate_adaptive_delay`). -/
theorem adaptive_delay_mono_errors_and_rateLimit_times_ten
    (domain : String) (stats : DomainStats) (ce1 ce2 : ℕ) (h : ce1 ≤ ce2) :
    calculate_adaptive_delay domain { stats with consecutive_errors := ce1 } ≤
      calculate_adaptive_delay domain { stats with consecutive_errors := ce2 } ∧
    calculate_adaptive_delay domain { stats with rate_limit_detected := true } =
      10 * calculate_adaptive_delay domain { stats with rate_limit_detected := false } := by
  obtain ⟨sc, ec, tr, art, lrt, ce, rld⟩ := stats
  constructor
  · rw [calculate_adaptive_delay_eq_prod, calculate_adaptive_delay_eq_prod]
    dsimp only
    have h1 : errorFactor ce1 ≤ errorFactor ce2 := errorFactor_mono h
    have h2 : (0:ℚ) ≤ baseDelay domain * successRateFactor sc tr :=
      mul_nonneg (baseDelay_pos domain).le (successRateFactor_pos sc tr).le
    exact mul_le_mul_of_nonneg_right
      (mul_le_mul_of_nonneg_right (mul_le_mul_of_nonneg_left h1 h2)
        (rateLimitFactor_pos rld).le)
      (responseTimeFactor_pos art).le
  · rw [calculate_adaptive_delay_eq_prod, calculate_adaptive_delay_eq_prod]
    dsimp only
    have ht : rateLimitFactor true = 10 := rfl
    have hf : rateLimitFactor false = 1 := rfl
    rw [ht, hf]
    ring

/-- Witness for C4 at a concrete domain and statistics. -/
theorem adaptive_delay_mono_errors_and_rateLimit_times_ten_witness :
    calculate_adaptive_delay "example.com" ⟨2, 1, 3, 0, 0, 1, false⟩ ≤
      calculate_adaptive_delay "example.com" ⟨2, 1, 3, 0, 0, 2, false⟩ ∧
    calculate_adaptive_delay "example.com" ⟨2, 1, 3, 0, 0, 1, true⟩ =
      10 * calculate_adaptive_delay "example.com" ⟨2, 1, 3, 0, 0, 1, false⟩ :=
  adaptive_delay_mono_errors_and_rateLimit_times_ten "example.com"
    ⟨2, 1, 3, 0, 0, 1, false⟩ 1 2 (by norm_num)

/-- Modelled from the spec (§4.2), as claim C5 states it: a success-rate
factor applied for every domain, with success rate `success_count /
total_requests` and thresholds 50% / 70% / 90%. -/
def specSuccessRateFactor (successCount totalRequests : ℕ) : ℚ :=
  let success_rate : ℚ := (successCount : ℚ) / (totalRequests : ℚ)
  if success_rate < 1/2 then 3
  else if success_rate < 7/10 then 2
  else if success_rate < 9/10 then 3/2
  else 4/5

/-- C5 counterexample: for a domain with 2 recorded requests, both
successful, the claim predicts the base delay multiplied by 0.8, but the
code applies no success-rate factor at all (it only does so once
`total_requests > 10`): the computed delay is 1, not 0.8. -/
theorem adaptive_delay_successFactor_counterexample :
    calculate_adaptive_delay "example.com" ⟨2, 0, 2, 0, 0, 0, false⟩ ≠
      specSuccessRateFactor 2 2 * baseDelay "example.com" := by
  have hb : baseDelay "example.com" = 1 := rfl
  rw [calculate_adaptive_delay_eq_prod]
  norm_num [hb, successRateFactor, specSuccessRateFactor, errorFactor,
    rateLimitFactor, responseTimeFactor]

/-- C5 amended: the success-rate factor (×3.0 below 50% success, ×2.0 below
70%, ×1.5 below 90%, ×0.8 otherwise) multiplies the delay exactly when the
domain has more than 10 recorded requests; with at most 10 requests no
success-rate factor is applied. -/
theorem adaptive_delay_successFactor_amended (domain : String) (stats : DomainStats) :
    (10 < stats.total_requests →
      calculate_adaptive_delay domain stats =
        specSuccessRateFactor stats.success_count stats.total_requests *
          (baseDelay domain * errorFactor stats.consecutive_errors *
            rateLimitFactor stats.rate_limit_detected *
            responseTimeFactor stats.avg_response_time)) ∧
    (stats.total_requests ≤ 10 →
      calculate_adaptive_delay domain stats =
        baseDelay domain * errorFactor stats.consecutive_errors *
          rateLimitFactor stats.rate_limit_detected *
          responseTimeFactor stats.avg_response_time) := by
  constructor
  · intro h
    rw [calculate_adaptive_delay_eq_prod]
    have hs : successRateFactor stats.success_count stats.total_requests =
        specSuccessRateFactor stats.success_count stats.total_requests := by
      unfold successRateFactor specSuccessRateFactor
      rw [if_pos h]
    rw [hs]; ring
  · intro h
    rw [calculate_adaptive_delay_eq_prod]
    have hs : successRateFactor stats.success_count stats.total_requests = 1 := by
      unfold successRateFactor
      rw [if_neg (by omega)]
    rw [hs]; ring

/-- Witness for the amended C5 at a concrete domain with 12 requests. -/
theorem adaptive_delay_successFactor_amended_witness :
    calculate_adaptive_delay "example.com" ⟨12, 0, 12, 0, 0, 0, false⟩ =
      specSuccessRateFactor 12 12 *
        (baseDelay "example.com" * errorFactor 0 * rateLimitFactor false *
          responseTimeFactor 0) :=
  (adaptive_delay_successFactor_amended "example.com" ⟨12, 0, 12, 0, 0, 0, false⟩).1
    (by norm_num)

/-- `AdaptiveRateLimiter.record_request_result` (ai_scraper_core.py lines
888-913): update one domain's statistics after a completed request.  The
optional Python `status_code=None` is an `Option ℤ`. -/
def record_request_result (stats : DomainStats) (success : Bool)
    (response_time : ℚ) (status_code : Option ℤ) : DomainStats :=
  let stats1 :=
    if success then
      { stats with success_count := stats.success_count + 1,
                   consecutive_errors := 0,
                   rate_limit_detected := false }
    else
      let s := { stats with error_count := stats.error_count + 1,
                            consecutive_errors := stats.consecutive_errors + 1 }
      if status_code = some 429 ∨ status_code = some 503 ∨ status_code = some 502 ∨
          s.consecutive_errors ≥ 3 then
        { s with rate_limit_detected := true }
      else s
  let total_responses := stats1.success_count + stats1.error_count
  if total_responses > 1 then
    { stats1 with avg_response_time :=
        (stats1.avg_response_time * ((total_responses : ℚ) - 1) + response_time) /
          (total_responses : ℚ) }
  else
    { stats1 with avg_response_time := response_time }

theorem record_request_result_counts (stats : DomainStats) (b : Bool) (rt : ℚ)
    (sc : Option ℤ) :
    (record_request_result stats b rt sc).success_count +
        (record_request_result stats b rt sc).error_count =
      stats.success_count + stats.error_count + 1 := by
  obtain ⟨s, e, tr, art, lrt, ce, rld⟩ := stats
  unfold record_request_result
  rcases b <;> dsimp only <;> split_ifs <;> dsimp only <;> omega

/-- Whatever the outcome, the new average response time is the running-mean
update of the old one over the incremented response count. -/
theorem record_request_result_avg_formula (stats : DomainStats) (b : Bool) (rt : ℚ)
    (sc : Option ℤ) :
    (record_request_result stats b rt sc).avg_response_time =
      if stats.success_count + stats.error_count + 1 > 1 then
        (stats.avg_response_time *
            (((stats.success_count + stats.error_count + 1 : ℕ) : ℚ) - 1) + rt) /
          ((stats.success_count + stats.error_count + 1 : ℕ) : ℚ)
      else rt := by
  obtain ⟨s, e, tr, art, lrt, ce, rld⟩ := stats
  unfold record_request_result
  rcases b <;> dsimp only <;> split_ifs <;> (try dsimp only at *) <;>
    first
      | rfl
      | contradiction
      | (exfalso; omega)
      | (push_cast; ring_nf)

theorem record_request_result_avg_step (stats : DomainStats) (b : Bool) (rt : ℚ)
    (sc : Option ℤ) (S : ℚ) (n : ℕ)
    (hn : stats.success_count + stats.error_count = n)
    (havg : stats.avg_response_time = S / (n : ℚ))
    (hS0 : n = 0 → S = 0) :
    (record_request_result stats b rt sc).avg_response_time =
      (S + rt) / ((n : ℚ) + 1) := by
  rw [record_request_result_avg_formula, hn]
  rcases Nat.eq_zero_or_pos n with h0 | hpos
  · subst h0
    rw [if_neg (by omega), hS0 rfl]
    norm_num
  · have hn0 : (n : ℚ) ≠ 0 := by
      exact_mod_cast Nat.pos_iff_ne_zero.mp hpos
    rw [if_pos (by omega), havg]
    push_cast
    field_simp

/-- One step of folding recorded outcomes (success flag, response time,
status code) through `record_request_result`. -/
def recordStep (st : DomainStats) (o : Bool × ℚ × Option ℤ) : DomainStats :=
  record_request_result st o.1 o.2.1 o.2.2

theorem foldl_record_inv (outcomes : List (Bool × ℚ × Option ℤ)) :
    ∀ (stats : DomainStats) (S : ℚ) (n : ℕ),
      stats.success_count + stats.error_count = n →
      stats.avg_response_time = S / (n : ℚ) →
      (n = 0 → S = 0) →
      (outcomes.foldl recordStep stats).success_count +
          (outcomes.foldl recordStep stats).error_count = n + outcomes.length ∧
      (outcomes.foldl recordStep stats).avg_response_time =
        (S + (outcomes.map (fun o => o.2.1)).sum) /
          ((n : ℚ) + (outcomes.length : ℚ)) := by
  induction outcomes with
  | nil =>
      intro stats S n hn havg hS0
      constructor
      · simpa using hn
      · simpa using havg
  | cons o os ih =>
      intro stats S n hn havg hS0
      have hc := record_request_result_counts stats o.1 o.2.1 o.2.2
      have ha := record_request_result_avg_step stats o.1 o.2.1 o.2.2 S n hn havg hS0
      have h' := ih (recordStep stats o) (S + o.2.1) (n + 1)
        (by unfold recordStep; omega)
        (by unfold recordStep; rw [ha]; push_cast; ring_nf)
        (by omega)
      rw [List.foldl_cons]
      refine ⟨by rw [h'.1]; simp only [List.length_cons]; omega, ?_⟩
      rw [h'.2, List.map_cons, List.sum_cons, List.length_cons]
      congr 1
      · ring
      · push_cast; ring

/-- C6: `record_request_result` resets `consecutive_errors` and
`rate_limit_detected` on success; on failure it increments
`consecutive_errors` and sets `rate_limit_detected` exactly when the status
code is 429, 502 or 503 or the post-increment `consecutive_errors` reaches
3 (leaving the flag unchanged otherwise); and, from a fresh domain entry,
`avg_response_time` is always the simple running mean of all recorded
response times. -/
theorem record_request_result_spec (stats : DomainStats) (rt : ℚ) (sc : Option ℤ)
    (outcomes : List (Bool × ℚ × Option ℤ)) :
    ((record_request_result stats true rt sc).consecutive_errors = 0 ∧
      (record_request_result stats true rt sc).rate_limit_detected = false) ∧
    ((record_request_result stats false rt sc).consecutive_errors =
        stats.consecutive_errors + 1 ∧
      ((sc = some 429 ∨ sc = some 502 ∨ sc = some 503 ∨
          stats.consecutive_errors + 1 ≥ 3) →
        (record_request_result stats false rt sc).rate_limit_detected = true) ∧
      (¬(sc = some 429 ∨ sc = some 502 ∨ sc = some 503 ∨
          stats.consecutive_errors + 1 ≥ 3) →
        (record_request_result stats false rt sc).rate_limit_detected =
          stats.rate_limit_detected)) ∧
    (outcomes.foldl recordStep initialDomainStats).avg_response_time =
      (outcomes.map (fun o => o.2.1)).sum / (outcomes.length : ℚ) := by
  obtain ⟨s, e, tr, art, lrt, ce, rld⟩ := stats
  refine ⟨⟨?_, ?_⟩, ⟨?_, ?_, ?_⟩, ?_⟩
  · unfold record_request_result
    dsimp only
    split_ifs <;> first | rfl | contradiction
  · unfold record_request_result
    dsimp only
    split_ifs <;> first | rfl | contradiction
  · unfold record_request_result
    dsimp only
    split_ifs <;> first | rfl | contradiction
  · intro h
    unfold record_request_result
    dsimp only
    split_ifs <;> first | rfl | contradiction | tauto
  · intro h
    unfold record_request_result
    dsimp only
    split_ifs <;> first | rfl | contradiction | tauto
  · have h := (foldl_record_inv outcomes initialDomainStats 0 0 rfl
      (by simp [initialDomainStats]) (fun _ => rfl)).2
    rw [h]
    norm_num

/-- Witness for C6 at concrete statistics, outcomes and status codes. -/
theorem record_request_result_spec_witness :
    (record_request_result ⟨3, 2, 5, 4, 0, 2, true⟩ true 1 none).consecutive_errors
        = 0 ∧
    (record_request_result ⟨3, 2, 5, 4, 0, 0, false⟩ false 1
        (some 429)).rate_limit_detected = true ∧
    (record_request_result ⟨3, 2, 5, 4, 0, 0, false⟩ false 1
        (some 200)).rate_limit_detected = false ∧
    ([(true, 2, none), (false, 4, some 503)].foldl recordStep
        initialDomainStats).avg_response_time = (2 + 4) / 2 := by
  refine ⟨(record_request_result_spec ⟨3, 2, 5, 4, 0, 2, true⟩ 1 none []).1.1,
    (record_request_result_spec ⟨3, 2, 5, 4, 0, 0, false⟩ 1 (some 429) []).2.1.2.1
      (by norm_num),
    ?_, ?_⟩
  · rw [(record_request_result_spec ⟨3, 2, 5, 4, 0, 0, false⟩ 1 (some 200) []).2.1.2.2
      (by norm_num)]
  · rw [(record_request_result_spec ⟨3, 2, 5, 4, 0, 0, false⟩ 1 none
      [(true, 2, none), (false, 4, some 503)]).2.2]
    norm_num

end RateLimiter


section Scheduler

/-- The five per-priority deques of `IntelligentTaskScheduler.task_queues`,
in `ScrapingPriority` order (CRITICAL=1 ... BACKGROUND=5).  Tasks are opaque
to `get_next_batch`, which only moves them, so the element type is a
parameter. -/
structure TaskQueues (α : Type) where
  critical : List α
  high : List α
  medium : List α
  low : List α
  background : List α
deriving Repr, DecidableEq

/-- The inner `while len(batch) < len(batch) + count and queue` loop of
`get_next_batch` (ai_scraper_core.py line 751).  Both sides of the
comparison grow together, so the condition is equivalent to `0 < count` at
every iteration: a positive count drains the entire queue into the batch,
and a zero count takes nothing. -/
def drainAll {α : Type} (count : ℤ) (batch q : List α) : List α × List α :=
  if 0 < count then (batch ++ q, []) else (batch, q)

/-- The `while remaining_slots > 0 and queue` fill loop of `get_next_batch`
(lines 759-762): pop tasks one at a time while slots remain, returning the
taken tasks, the leftover queue, and the updated slot counter. -/
def takeSlots {α : Type} : ℤ → List α → List α × List α × ℤ
  | remaining, [] => ([], [], remaining)
  | remaining, t :: rest =>
    if 0 < remaining then
      match takeSlots (remaining - 1) rest with
      | (taken, left, rem) => (t :: taken, left, rem)
    else ([], t :: rest, remaining)

/-- `IntelligentTaskScheduler.get_next_batch` (ai_scraper_core.py lines
733-764): proportional phase over the `priority_allocation` dict
(0.4 / 0.3 / 0.2 / 0.1 / 0.0, `count = int(batch_size * allocation)`),
then the fill phase over all priorities with
`remaining_slots = batch_size - len(batch)`.  Returns the batch and the
queues' final state. -/
def get_next_batch {α : Type} (qs : TaskQueues α) (batch_size : ℕ) :
    List α × TaskQueues α :=
  let c1 := pyInt ((batch_size : ℚ) * (2/5))
  let p1 := drainAll c1 [] qs.critical
  let c2 := pyInt ((batch_size : ℚ) * (3/10))
  let p2 := drainAll c2 p1.1 qs.high
  let c3 := pyInt ((batch_size : ℚ) * (1/5))
  let p3 := drainAll c3 p2.1 qs.medium
  let c4 := pyInt ((batch_size : ℚ) * (1/10))
  let p4 := drainAll c4 p3.1 qs.low
  let c5 := pyInt ((batch_size : ℚ) * 0)
  let p5 := drainAll c5 p4.1 qs.background
  let rem0 : ℤ := (batch_size : ℤ) - p5.1.length
  let q1 := takeSlots rem0 p1.2
  let b1 := p5.1 ++ q1.1
  let q2 := takeSlots q1.2.2 p2.2
  let b2 := b1 ++ q2.1
  let q3 := takeSlots q2.2.2 p3.2
  let b3 := b2 ++ q3.1
  let q4 := takeSlots q3.2.2 p4.2
  let b4 := b3 ++ q4.1
  let q5 := takeSlots q4.2.2 p5.2
  (b4 ++ q5.1, ⟨q1.2.1, q2.2.1, q3.2.1, q4.2.1, q5.2.1⟩)

/-- C1 fails on the code: with 20 tasks in the Critical queue and a
requested batch size of 10, `get_next_batch` returns all 20 tasks — more
than `batch_size`.  The tautological loop condition
`len(batch) < len(batch) + count` drains the whole queue instead of taking
`int(batch_size * 0.4)` tasks, so neither the proportional split nor the
batch-size bound claimed by the spec holds on this input. -/
theorem get_next_batch_overshoots_batch_size :
    (get_next_batch (⟨List.replicate 20 0, [], [], [], []⟩ : TaskQueues ℕ) 10).1.length
        = 20 ∧
    ¬ (get_next_batch (⟨List.replicate 20 0, [], [], [], []⟩ : TaskQueues ℕ) 10).1.length
        ≤ 10 := by
  have h1 : pyInt (((10:ℕ) : ℚ) * (2/5)) = 4 := by norm_num [pyInt]
  have h2 : pyInt (((10:ℕ) : ℚ) * (3/10)) = 3 := by norm_num [pyInt]
  have h3 : pyInt (((10:ℕ) : ℚ) * (1/5)) = 2 := by norm_num [pyInt]
  have h4 : pyInt (((10:ℕ) : ℚ) * (1/10)) = 1 := by norm_num [pyInt]
  have h5 : pyInt (((10:ℕ) : ℚ) * 0) = 0 := by norm_num [pyInt]
  constructor <;>
    · simp only [get_next_batch, h1, h2, h3, h4, h5]
      norm_num [drainAll, takeSlots]

end Scheduler

section LoadBalancer

/-- `ScrapingTier` (ai_scraper_core.py lines 54-64). -/
inductive ScrapingTier where
  | TIER_1_GOVERNMENT
  | TIER_2_INTERNATIONAL
  | TIER_3_ACADEMIC
  | TIER_4_JOURNALS
  | TIER_5_DATABASES
  | TIER_6_MEDICAL_SITES
  | TIER_7_APIS
  | TIER_8_DISEASE_ORGS
  | TIER_9_NEWS
  | TIER_10_INTERNATIONAL_MISC
deriving Repr, DecidableEq

/-- Per-tier performance entry of `DynamicLoadBalancer.tier_performance`
(super_parallel_engine.py lines 55-62).  The wall-clock `last_adjustment`
timestamp is not modelled. -/
structure TierStats where
  avg_response_time : ℚ := 5
  success_rate : ℚ := 4/5
  current_load : ℤ := 0
  optimal_concurrency : ℤ := 50
deriving Repr, DecidableEq

/-- The numeric fields of `ProcessingMetrics` (super_parallel_engine.py
lines 32-50). -/
structure ProcessingMetrics where
  tasks_queued : ℕ := 0
  tasks_processing : ℕ := 0
  tasks_completed : ℕ := 0
  tasks_failed : ℕ := 0
  avg_processing_time : ℚ := 0
  peak_concurrent_tasks : ℕ := 0
  total_content_extracted_mb : ℚ := 0
  current_processing_rate : ℚ := 0
  memory_usage_mb : ℚ := 0
  cpu_usage_percent : ℚ := 0
  network_bandwidth_mbps : ℚ := 0
deriving Repr, DecidableEq

/-- The `base_concurrency` dict lookup with default 50
(super_parallel_engine.py lines 71-77). -/
def base_concurrency (tier : ScrapingTier) : ℤ :=
  match tier with
  | .TIER_1_GOVERNMENT => 100
  | .TIER_2_INTERNATIONAL => 80
  | .TIER_3_ACADEMIC => 120
  | _ => 50

/-- `DynamicLoadBalancer._calculate_system_resource_multiplier`
(super_parallel_engine.py lines 105-126). -/
def calculate_system_resource_multiplier (metrics : ProcessingMetrics) : ℚ :=
  let cpu_factor :=
    if metrics.cpu_usage_percent > 90 then (1/2 : ℚ)
    else if metrics.cpu_usage_percent > 80 then 7/10
    else if metrics.cpu_usage_percent > 70 then 9/10
    else 1
  let memory_factor :=
    if metrics.memory_usage_mb > 8000 then (3/5 : ℚ)
    else if metrics.memory_usage_mb > 6000 then 4/5
    else if metrics.memory_usage_mb > 4000 then 9/10
    else 1
  min cpu_factor memory_factor

/-- `DynamicLoadBalancer.calculate_optimal_concurrency`
(super_parallel_engine.py lines 64-103), returning the value stored into
`tier_stats['optimal_concurrency']`. -/
def calculate_optimal_concurrency (tier : ScrapingTier) (tier_stats : TierStats)
    (current_metrics : ProcessingMetrics) : ℤ :=
  let base_level := base_concurrency tier
  let success_multiplier := min (3/2 : ℚ) (max (3/10) tier_stats.success_rate)
  let time_multiplier :=
    if tier_stats.avg_response_time < 2 then (6/5 : ℚ)
    else if tier_stats.avg_response_time < 5 then 1
    else if tier_stats.avg_response_time < 10 then 4/5
    else 1/2
  let system_multiplier := calculate_system_resource_multiplier current_metrics
  let optimal :=
    pyInt ((base_level : ℚ) * success_multiplier * time_multiplier * system_multiplier)
  max 10 (min optimal 500)

/-- C3: for every tier, every success rate in [0,1], every response time in
[0, 1e6] and arbitrary CPU and memory readings, the computed optimal
concurrency lies in [10, 500] (the `max(10, min(optimal, 500))` clamp). -/
theorem calculate_optimal_concurrency_bounds (tier : ScrapingTier)
    (tier_stats : TierStats) (metrics : ProcessingMetrics)
    (hsr0 : 0 ≤ tier_stats.success_rate) (hsr1 : tier_stats.success_rate ≤ 1)
    (hrt0 : 0 ≤ tier_stats.avg_response_time)
    (hrt1 : tier_stats.avg_response_time ≤ 1000000) :
    10 ≤ calculate_optimal_concurrency tier tier_stats metrics ∧
      calculate_optimal_concurrency tier tier_stats metrics ≤ 500 := by
  unfold calculate_optimal_concurrency
  dsimp only
  exact ⟨le_max_left _ _, max_le (by norm_num) (min_le_right _ _)⟩

/-- Witness for C3 at a concrete tier, statistics and metrics. -/
theorem calculate_optimal_concurrency_bounds_witness :
    10 ≤ calculate_optimal_concurrency .TIER_1_GOVERNMENT
        ⟨5, 4/5, 0, 50⟩ ⟨0, 0, 0, 0, 0, 0, 0, 0, 0, 0, 0⟩ ∧
      calculate_optimal_concurrency .TIER_1_GOVERNMENT
        ⟨5, 4/5, 0, 50⟩ ⟨0, 0, 0, 0, 0, 0, 0, 0, 0, 0, 0⟩ ≤ 500 :=
  calculate_optimal_concurrency_bounds .TIER_1_GOVERNMENT
    ⟨5, 4/5, 0, 50⟩ ⟨0, 0, 0, 0, 0, 0, 0, 0, 0, 0, 0⟩
    (by norm_num) (by norm_num) (by norm_num) (by norm_num)

/-- `DynamicLoadBalancer.update_tier_performance` (super_parallel_engine.py
lines 128-146): exponential moving averages with alpha = 0.1. -/
def update_tier_performance (tier_stats : TierStats) (response_time : ℚ)
    (success : Bool) (current_load : ℤ) : TierStats :=
  let alpha : ℚ := 1/10
  { tier_stats with
    avg_response_time :=
      alpha * response_time + (1 - alpha) * tier_stats.avg_response_time,
    success_rate :=
      alpha * (if success then (1:ℚ) else 0) + (1 - alpha) * tier_stats.success_rate,
    current_load := current_load }

/-- C7: `update_tier_performance` applies the EMA rule
`new = 0.1 * sample + 0.9 * old` to both the response time and the success
rate (success sample 1.0, failure sample 0.0); from success rate 0.8 a
success yields 0.82 and a failure yields 0.72. -/
theorem update_tier_performance_ema (tier_stats : TierStats) (rt : ℚ)
    (success : Bool) (load : ℤ) :
    (update_tier_performance tier_stats rt success load).avg_response_time =
        (1/10) * rt + (9/10) * tier_stats.avg_response_time ∧
    (update_tier_performance tier_stats rt success load).success_rate =
        (1/10) * (if success then (1:ℚ) else 0) + (9/10) * tier_stats.success_rate ∧
    (update_tier_performance { tier_stats with success_rate := 4/5 } rt true
        load).success_rate = 41/50 ∧
    (update_tier_performance { tier_stats with success_rate := 4/5 } rt false
        load).success_rate = 18/25 := by
  refine ⟨?_, ?_, ?_, ?_⟩ <;>
    · unfold update_tier_performance
      dsimp only
      first
        | norm_num
        | ring

end LoadBalancer

section RetrySystem

/-- The `max_retries` dict of `IntelligentRetrySystem.should_retry` with
`.get(task.tier, 3)` (super_parallel_engine.py lines 305-311). -/
def max_retries_for (tier : ScrapingTier) : ℕ :=
  match tier with
  | .TIER_1_GOVERNMENT => 5
  | .TIER_2_INTERNATIONAL => 4
  | .TIER_3_ACADEMIC => 3
  | _ => 3

/-- The `retry_on_errors` marker list of `should_retry`
(super_parallel_engine.py lines 317-319). -/
def retry_on_errors : List String :=
  ["timeout", "connection", "network", "502", "503", "504", "429"]

/-- `IntelligentRetrySystem.should_retry` (super_parallel_engine.py lines
300-324).  A Python exception reaches the function only through
`str(error).lower()`, so the error is modelled by its message string. -/
def should_retry (tier : ScrapingTier) (error_str : String)
    (attempt_number : ℕ) : Bool :=
  if attempt_number ≥ max_retries_for tier then false
  else retry_on_errors.any (fun m => strContains (strToLower error_str) m)

/-- Modelled from the spec (§4.5): the error classes the spec calls
retryable — timeout, connection reset/refused, DNS failure,
HTTP 429/502/503/504 — versus everything else (terminal). -/
inductive SpecErrorClass where
  | timeout
  | connReset
  | connRefused
  | dnsFailure
  | http429
  | http502
  | http503
  | http504
  | nonRetryable
deriving Repr, DecidableEq

/-- Modelled from the spec (§4.5): whether a class of error is retryable. -/
def specRetryable (c : SpecErrorClass) : Bool :=
  match c with
  | .nonRetryable => false
  | _ => true

/-- C8 counterexample: a DNS failure (CPython resolver message
`"[Errno -2] Name or service not known"`) is classified retryable by the
spec, yet `should_retry` returns `false` even on the very first attempt of
a government-tier task, because the message contains none of the seven
markers the code searches for. -/
theorem should_retry_dns_failure_counterexample :
    specRetryable .dnsFailure = true ∧
    0 < max_retries_for .TIER_1_GOVERNMENT ∧
    should_retry .TIER_1_GOVERNMENT "[Errno -2] Name or service not known" 0
        = false := by
  refine ⟨rfl, by norm_num [max_retries_for], ?_⟩
  rfl

/-- C8 amended: `should_retry` returns `false` once the attempt number
reaches the per-tier bound (government 5, international 4, otherwise 3);
below the bound it returns `true` iff the lowercased error message contains
one of the substrings `timeout`, `connection`, `network`, `502`, `503`,
`504`, `429` — so a DNS failure whose message carries none of these markers
is terminal. -/
theorem should_retry_amended (tier : ScrapingTier) (msg : String)
    (attempt : ℕ) :
    (attempt ≥ max_retries_for tier → should_retry tier msg attempt = false) ∧
    (attempt < max_retries_for tier →
      (should_retry tier msg attempt = true ↔
        ∃ m ∈ retry_on_errors, strContains (strToLower msg) m = true)) ∧
    max_retries_for .TIER_1_GOVERNMENT = 5 ∧
    max_retries_for .TIER_2_INTERNATIONAL = 4 ∧
    (tier ≠ .TIER_1_GOVERNMENT → tier ≠ .TIER_2_INTERNATIONAL →
      max_retries_for tier = 3) := by
  refine ⟨?_, ?_, rfl, rfl, ?_⟩
  · intro h
    unfold should_retry
    rw [if_pos h]
  · intro h
    unfold should_retry
    rw [if_neg (by omega)]
    simp [List.any_eq_true]
  · intro h1 h2
    cases tier <;> first
      | rfl
      | (exact absurd rfl h1)
      | (exact absurd rfl h2)

/-- Witness for the amended C8: a connection-reset message below the bound
is retried; any message at the bound is not. -/
theorem should_retry_amended_witness :
    should_retry .TIER_1_GOVERNMENT "Connection reset by peer" 1 = true ∧
    should_retry .TIER_1_GOVERNMENT "parse failure" 5 = false := by
  constructor
  · exact ((should_retry_amended .TIER_1_GOVERNMENT "Connection reset by peer"
      1).2.1 (by norm_num [max_retries_for])).mpr
      ⟨"connection", by norm_num [retry_on_errors], by rfl⟩
  · exact (should_retry_amended .TIER_1_GOVERNMENT "parse failure" 5).1
      (by norm_num [max_retries_for])

end RetrySystem

section Deduplicator

/-- A URL as `urllib.parse.urlparse` (Python stdlib, not repository code)
decomposes it: network location, path, query string and fragment.
`_extract_url_pattern` reads only `netloc` and `path`. -/
structure Url where
  netloc : String
  path : String
  query : String
  fragment : String
deriving Repr, DecidableEq

/-- Python `path.rstrip('/')`. -/
def rstripSlash (s : String) : String :=
  ⟨(s.data.reverse.dropWhile (fun c => c = '/')).reverse⟩

/-- Python `re.sub(r'/\d+', '/[ID]', s)`: each slash followed by a maximal
nonempty digit run is replaced by `/[ID]`, scanning left to right. -/
def subSlashNum : List Char → List Char
  | [] => []
  | c :: rest =>
    if c = '/' then
      let ds := rest.takeWhile Char.isDigit
      if ds.isEmpty then c :: subSlashNum rest
      else '/' :: '[' :: 'I' :: 'D' :: ']' :: subSlashNum (rest.drop ds.length)
    else c :: subSlashNum rest
termination_by l => l.length
decreasing_by
  all_goals simp [List.length_drop]
  all_goals omega

/-- Python `re.sub(r'page=\d+', 'page=[NUM]', s)`: each occurrence of
`page=` followed by a maximal nonempty digit run is replaced by
`page=[NUM]`, scanning left to right. -/
def subPageNum : List Char → List Char
  | [] => []
  | c :: rest =>
    if "page=".data.isPrefixOf (c :: rest) then
      let after := (c :: rest).drop 5
      let ds := after.takeWhile Char.isDigit
      if ds.isEmpty then c :: subPageNum rest
      else "page=[NUM]".data ++ subPageNum (after.drop ds.length)
    else c :: subPageNum rest
termination_by l => l.length
decreasing_by
  all_goals simp [List.length_drop]
  all_goals omega

/-- `AdvancedDeduplicator._extract_url_pattern` (ai_scraper_core.py lines
1024-1037): keep `netloc` plus the slash-stripped path with numeric
segments and `page=N` runs replaced by placeholders; the query string and
fragment are never read. -/
def extract_url_pattern (url : Url) : String :=
  let clean_path := rstripSlash url.path
  let pattern_path := subSlashNum clean_path.data
  let pattern_path2 := subPageNum pattern_path
  url.netloc ++ String.mk pattern_path2

/-- The two signature sets of `AdvancedDeduplicator.__init__`. -/
structure DedupState where
  content_hashes : List String
  url_patterns : List String
deriving Repr, DecidableEq

def emptyDedupState : DedupState := ⟨[], []⟩

/-- Stand-in for the `hashlib.md5(content.encode()).hexdigest()` call
(library code, not in the repository): an injective function of the
content.  The claims settled here depend only on equal contents having
equal hashes and on the URL-pattern path, which hold for the real digest
as well. -/
def contentHash (content : String) : String := content

/-- `AdvancedDeduplicator.is_duplicate` (ai_scraper_core.py lines
997-1022): exact hash match, then URL-pattern match; the similarity and
metadata methods are placeholders that always return `False` (lines
1039-1062).  Returns the verdict and the updated state. -/
def is_duplicate (st : DedupState) (content : String) (url : Url) :
    Bool × DedupState :=
  let h := contentHash content
  if h ∈ st.content_hashes then (true, st)
  else
    let pat := extract_url_pattern url
    if pat ∈ st.url_patterns then (true, st)
    else (false, ⟨h :: st.content_hashes, pat :: st.url_patterns⟩)

/-- C9: from a fresh deduplicator, the same content is reported new once
and duplicate the second time; two different contents whose URLs differ
only by a trailing `page=3` versus `page=7` query are reported new then
duplicate; a non-matching call records the hash and pattern, a matching
call leaves the state unchanged. -/
theorem is_duplicate_dedup_scenarios (c c1 c2 : String) (u : Url)
    (host path : String) (hne : c1 ≠ c2) :
    ((is_duplicate emptyDedupState c u).1 = false ∧
      (is_duplicate (is_duplicate emptyDedupState c u).2 c u).1 = true) ∧
    ((is_duplicate emptyDedupState c1 ⟨host, path, "page=3", ""⟩).1 = false ∧
      (is_duplicate (is_duplicate emptyDedupState c1 ⟨host, path, "page=3", ""⟩).2
        c2 ⟨host, path, "page=7", ""⟩).1 = true) ∧
    (∀ (st : DedupState) (c3 : String) (u3 : Url),
      ((is_duplicate st c3 u3).1 = true → (is_duplicate st c3 u3).2 = st) ∧
      ((is_duplicate st c3 u3).1 = false →
        (is_duplicate st c3 u3).2 =
          ⟨contentHash c3 :: st.content_hashes,
            extract_url_pattern u3 :: st.url_patterns⟩)) := by
  have hc : c2 ≠ c1 := Ne.symm hne
  refine ⟨⟨?_, ?_⟩, ⟨?_, ?_⟩, ?_⟩
  · simp [is_duplicate, emptyDedupState]
  · simp [is_duplicate, emptyDedupState, contentHash]
  · simp [is_duplicate, emptyDedupState]
  · simp [is_duplicate, emptyDedupState, contentHash, extract_url_pattern, hc]
  · intro st c3 u3
    constructor <;> intro h <;>
      · unfold is_duplicate at h ⊢
        dsimp only at h ⊢
        split_ifs at h ⊢ <;> first | rfl | simp at h

/-- Witness for C9 at concrete contents and URLs. -/
theorem is_duplicate_dedup_scenarios_witness :
    (is_duplicate emptyDedupState "a"
        ⟨"example.com", "/news", "page=3", ""⟩).1 = false ∧
    (is_duplicate (is_duplicate emptyDedupState "a"
        ⟨"example.com", "/news", "page=3", ""⟩).2 "b"
        ⟨"example.com", "/news", "page=7", ""⟩).1 = true :=
  (is_duplicate_dedup_scenarios "x" "a" "b" ⟨"h", "p", "q", "f"⟩
    "example.com" "/news" (by simp)).2.1

/-- C10: the canonical URL pattern depends only on the host and path — the
entire query string and fragment are discarded — so once a URL's pattern is
recorded, any later URL with the same host and path (any query, any
fragment) is reported duplicate even with brand-new content. -/
theorem extract_url_pattern_ignores_query (u1 u2 : Url)
    (hn : u1.netloc = u2.netloc) (hp : u1.path = u2.path) :
    extract_url_pattern u1 = extract_url_pattern u2 ∧
    extract_url_pattern u1 =
      u1.netloc ++ String.mk (subPageNum (subSlashNum (rstripSlash u1.path).data)) ∧
    (∀ (st : DedupState) (c1 c2 : String) (st1 : DedupState),
      is_duplicate st c1 u1 = (false, st1) →
      (is_duplicate st1 c2 u2).1 = true) := by
  have hpe : extract_url_pattern u1 = extract_url_pattern u2 := by
    unfold extract_url_pattern
    rw [hn, hp]
  refine ⟨hpe, rfl, ?_⟩
  intro st c1 c2 st1 h
  unfold is_duplicate at h
  dsimp only at h
  split_ifs at h with h1 h2
  · simp at h
  · simp at h
  · have hst1 : st1 =
        ⟨contentHash c1 :: st.content_hashes,
          extract_url_pattern u1 :: st.url_patterns⟩ := by
      have h' := congrArg Prod.snd h
      simpa using h'.symm
    subst hst1
    unfold is_duplicate
    dsimp only
    split_ifs with g1 g2
    · rfl
    · rfl
    · exact absurd (by rw [← hpe]; exact List.mem_cons_self _ _) g2

/-- Witness for C10 at a concrete pair of URLs differing in query and
fragment. -/
theorem extract_url_pattern_ignores_query_witness :
    extract_url_pattern ⟨"example.com", "/articles/123", "page=3", ""⟩ =
      extract_url_pattern ⟨"example.com", "/articles/123", "sort=asc", "top"⟩ ∧
    (is_duplicate (is_duplicate emptyDedupState "a"
        ⟨"example.com", "/articles/123", "page=3", ""⟩).2 "b"
        ⟨"example.com", "/articles/123", "sort=asc", "top"⟩).1 = true := by
  have h := extract_url_pattern_ignores_query
    ⟨"example.com", "/articles/123", "page=3", ""⟩
    ⟨"example.com", "/articles/123", "sort=asc", "top"⟩ rfl rfl
  exact ⟨h.1, h.2.2 emptyDedupState "a" "b" _ rfl⟩

end Deduplicator

section ControlSurface

/-- The pydantic `ScrapingRequest` model (medical_scraper_api.py lines
25-30); every field is optional with the given defaults. -/
structure ScrapingRequest where
  target_documents : Option ℤ := some 1000
  max_concurrent_workers : Option ℤ := some 100
  quality_threshold : Option ℚ := some (3/5)
deriving Repr, DecidableEq

/-- The module-level `current_operation` dict, reduced to the fields the
endpoint consults and sets. -/
structure Operation where
  status : String
deriving Repr, DecidableEq

/-- Outcome of a call to the endpoint: an `HTTPException` with its status
code, or a started run. -/
inductive StartOutcome where
  | httpError (statusCode : ℕ)
  | started
deriving Repr, DecidableEq

/-- `start_comprehensive_scraping` (medical_scraper_api.py lines 51-116).
Python truthiness guards the two validations: `if request.target_documents
and (...)` skips the range check when the field is `None` — or `0`; likewise
`if request.quality_threshold and (...)` skips it for `None` or `0.0`.
Then the conflict check, then the run is created with status `running`.
Returns the outcome and the new `current_operation`. -/
def start_comprehensive_scraping (request : ScrapingRequest)
    (current_operation : Option Operation) : StartOutcome × Option Operation :=
  let tdTruthy := match request.target_documents with
    | none => false
    | some td => td ≠ 0
  let tdBad := tdTruthy && match request.target_documents with
    | none => false
    | some td => td < 1 || td > 1000000
  if tdBad then (.httpError 422, current_operation)
  else
    let qtTruthy := match request.quality_threshold with
      | none => false
      | some q => q ≠ 0
    let qtBad := qtTruthy && match request.quality_threshold with
      | none => false
      | some q => q < 0 || q > 1
    if qtBad then (.httpError 422, current_operation)
    else
      let opRunning := match current_operation with
        | some op => op.status == "running"
        | none => false
      if opRunning then (.httpError 409, current_operation)
      else (.started, some ⟨"running"⟩)

/-- C2 fails on the code at `targetDocuments = 0`: because `0` is falsy,
the guard `if request.target_documents and (...)` skips the range check
entirely, so the request is accepted and a run is created with status
`running` — no validation error is returned.  (The validation's own
`< 1` bound and the repository test suite show rejection was intended.)
The conflict branch for an already-running operation does behave as
claimed. -/
theorem start_comprehensive_scraping_accepts_zero :
    start_comprehensive_scraping
        ⟨some 0, some 100, some (3/5)⟩ none = (.started, some ⟨"running"⟩) ∧
    start_comprehensive_scraping
        ⟨some 0, some 100, some (3/5)⟩ (some ⟨"running"⟩) =
      (.httpError 409, some ⟨"running"⟩) := by
  constructor <;>
    · unfold start_comprehensive_scraping
      norm_num

end ControlSurface
